import Mathlib

set_option autoImplicit false

/-!
Verification of the QC utilities of `fmriprep-qc-utils` against their
natural-language specification.  The Python sources live in
`src/scripts/utils.py`, `src/scripts/fp_derivs_check.py` and
`src/scripts/full_derivs_check.py`; each definition below is a shallow
embedding of the function named like it (source file and line ranges are
given in the doc comments).  Machine floats are modelled by rationals,
with an explicit NaN constructor where a column can hold `numpy.nan`;
volumetric images are flat voxel lists over a fixed common grid.
-/

namespace FmriprepQC

/-! ## Value model -/

/-- Model of a Python float as it flows through the QC table: either `numpy.nan`
or an actual (rational) value.  Needed because `process_subject_run_full`
stores `np.nan` in the `numvox_grtr_1e10` column (utils.py line 363). -/
inductive PyFloat where
  | nan : PyFloat
  | val (q : ℚ) : PyFloat
deriving DecidableEq

/-- IEEE comparison `x > c` as pandas evaluates it on a float column: any
comparison against NaN is `False`. -/
def PyFloat.gt : PyFloat → ℚ → Bool
  | .nan, _ => false
  | .val q, c => decide (q > c)

/-- IEEE comparison `x ≤ c`: any comparison against NaN is `False`. -/
def PyFloat.le : PyFloat → ℚ → Bool
  | .nan, _ => false
  | .val q, c => decide (q ≤ c)

/-- The third component returned by `voxel_inout_ratio`: a finite rational, or
`float('inf')` (utils.py line 41). -/
inductive InOutRatio where
  | posInf : InOutRatio
  | fin (q : ℚ) : InOutRatio
deriving DecidableEq

/-! ## Metric primitives (utils.py lines 14–43)

An image is a flat list of voxel intensities; two images on the same grid are
walked in lockstep with `List.zip`. -/

/-- Voxels of `img` that are non-zero and lie inside the mask
(`np.count_nonzero(img_data[mask_data])`, utils.py line 34; the mask is
binarised by `> 0` on line 33). -/
def nonzero_inside (img mask : List ℚ) : ℕ :=
  ((img.zip mask).filter (fun p => decide (p.2 > 0) && decide (p.1 ≠ 0))).length

/-- Voxels of `img` that are non-zero and lie outside the mask
(`np.count_nonzero(img_data[~mask_data])`, utils.py line 35). -/
def nonzero_outside (img mask : List ℚ) : ℕ :=
  ((img.zip mask).filter (fun p => !decide (p.2 > 0) && decide (p.1 ≠ 0))).length

/-- `total_nonzero = nonzero_inside + nonzero_outside` (utils.py line 36). -/
def total_nonzero (img mask : List ℚ) : ℕ :=
  nonzero_inside img mask + nonzero_outside img mask

/-- Shallow embedding of `voxel_inout_ratio` (utils.py lines 14–43): percent of
non-zero voxels inside / outside the brain mask and their ratio.  Both
percentages are defined as 0 when the non-zero total is 0, and the ratio is
`float('inf')` when the outside percentage is 0. -/
def voxel_inout_ratio (img mask : List ℚ) : ℚ × ℚ × InOutRatio :=
  let nzIn := nonzero_inside img mask
  let nzOut := nonzero_outside img mask
  let total := total_nonzero img mask
  let percent_inside : ℚ := if total ≠ 0 then ((nzIn : ℚ) / (total : ℚ)) * 100 else 0
  let percent_outside : ℚ := if total ≠ 0 then ((nzOut : ℚ) / (total : ℚ)) * 100 else 0
  let ratio_invout : InOutRatio :=
    if percent_outside ≠ 0 then .fin (percent_inside / percent_outside) else .posInf
  (percent_inside, percent_outside, ratio_invout)

/-- `np.sum(np.abs(out_data) > 1e10)` (utils.py line 302): number of voxels of
absolute intensity above `1e10`. -/
def extreme_voxel_count (vox : List ℚ) : ℕ :=
  (vox.filter (fun v => decide (|v| > 10 ^ 10))).length

/-! ## QC records and the flagging rule -/

/-- One row of the QC table, as assembled by `similarity_boldtarget_metrics`
(utils.py lines 91–100).  `numvox_grtr_1e10` is a `PyFloat` because the full
variant stores `np.nan` there. -/
structure QCRecord where
  img1 : String
  img1name : String
  img2 : String
  dice : ℚ
  voxinmask : ℚ
  voxoutmask : ℚ
  ratio_inoutmask : InOutRatio
  numvox_grtr_1e10 : PyFloat
deriving DecidableEq

/-- The row-level flag condition
`(dice < 0.80) | (voxoutmask > 20) | (numvox_grtr_1e10 > 0)`
(fp_derivs_check.py lines 91–93 and full_derivs_check.py lines 44–46). -/
def rowFlag (r : QCRecord) : Bool :=
  decide (r.dice < 4 / 5) || decide (r.voxoutmask > 20) || r.numvox_grtr_1e10.gt 0

/-- The `flagged` column after `.astype(int)`: 1 when the condition holds,
0 otherwise. -/
def flaggedInt (r : QCRecord) : ℤ :=
  if rowFlag r then 1 else 0

/-- The aggregation tail shared by both check scripts: raise `ValueError` when
the collected record list is empty (fp_derivs_check.py lines 85–87,
full_derivs_check.py lines 40–41), otherwise attach the integer `flagged`
column to every row (the table that is then written to disk). -/
def buildFlaggedTable (records : List QCRecord) :
    Except String (List (QCRecord × ℤ)) :=
  if records.isEmpty then
    .error "Error: df_qcresults is empty. No QC results found."
  else
    .ok (records.map (fun r => (r, flaggedInt r)))

/-! ## Run identity strings (utils.py lines 66–73) -/

/-- The BIDS entities `parse_file_entities` can report for a filename, limited
to the four keys the source inspects. -/
structure ParsedEntities where
  subject : Option String
  session : Option String
  task : Option String
  run : Option String
deriving DecidableEq

/-- Python's `'_'.join(parts)`. -/
def joinUnderscore : List String → String
  | [] => ""
  | [p] => p
  | p :: q :: ps => p ++ "_" ++ joinUnderscore (q :: ps)

/-- The `parts` list of utils.py lines 68–71: for each key of
`['subject', 'session', 'task', 'run']` that is present in the parsed
entities, the string `f"{key}-{value}"` — note that the *full* key name is
used, not the BIDS short form. -/
def runInfoParts (e : ParsedEntities) : List String :=
  (match e.subject with | some v => ["subject-" ++ v] | none => []) ++
  (match e.session with | some v => ["session-" ++ v] | none => []) ++
  (match e.task with | some v => ["task-" ++ v] | none => []) ++
  (match e.run with | some v => ["run-" ++ v] | none => [])

/-- `sub_run_info = '_'.join(parts)` (utils.py line 73). -/
def sub_run_info (e : ParsedEntities) : String :=
  joinUnderscore (runInfoParts e)

/-! ## Helper lemmas -/

/-- A value that compares `≤ 0` compares `> 0` as false (in particular it is
not NaN, since NaN fails every comparison). -/
theorem PyFloat.gt_eq_false_of_le (x : PyFloat) (h : x.le 0 = true) :
    x.gt 0 = false := by
  cases x with
  | nan => simp [PyFloat.le] at h
  | val q =>
    simp only [PyFloat.le, decide_eq_true_eq] at h
    simp only [PyFloat.gt, decide_eq_false_iff_not]
    linarith

theorem buildFlaggedTable_ok {records : List QCRecord} {tbl : List (QCRecord × ℤ)}
    (h : buildFlaggedTable records = .ok tbl) :
    tbl = records.map (fun r => (r, flaggedInt r)) := by
  unfold buildFlaggedTable at h
  by_cases he : records.isEmpty
  · simp [he] at h
  · simp [he] at h
    exact h.symm

/-- The integer `flagged` cell is 1 exactly when the boolean condition holds. -/
theorem flaggedInt_eq_one_iff (r : QCRecord) :
    flaggedInt r = 1 ↔ rowFlag r = true := by
  cases h : rowFlag r <;> simp [flaggedInt, h]

/-- The boolean condition, spelt out as a disjunction of the three clauses. -/
theorem rowFlag_iff (r : QCRecord) :
    rowFlag r = true ↔
      (r.dice < 4 / 5 ∨ r.voxoutmask > 20 ∨ r.numvox_grtr_1e10.gt 0 = true) := by
  simp [rowFlag, or_assoc]

/-- On the boundary `dice = 0.80` (with the other two clauses quiet) the row is
not flagged. -/
theorem rowFlag_boundary (r : QCRecord) (hdice : r.dice = 4 / 5)
    (hvox : r.voxoutmask ≤ 20) (hnum : r.numvox_grtr_1e10.le 0 = true) :
    flaggedInt r = 0 := by
  have hgt := PyFloat.gt_eq_false_of_le _ hnum
  have h1 : ¬ (r.dice < 4 / 5) := by
    rw [hdice]
    exact lt_irrefl _
  have h2 : ¬ (r.voxoutmask > 20) := not_lt.mpr hvox
  simp [flaggedInt, rowFlag, h1, h2, hgt]

/-! ## Claim C1 -/

/-- C1: in the aggregators' flagging rule, a row of the built table carries
`flagged = 1` iff `dice < 0.80` or `voxoutmask > 20` or `numvox_grtr_1e10 > 0`;
and on the boundary, a row with `dice` exactly `0.80`, `voxoutmask ≤ 20` and
`numvox_grtr_1e10 ≤ 0` carries `flagged = 0`. -/
theorem flag_rule_c1 (records : List QCRecord) (tbl : List (QCRecord × ℤ))
    (htbl : buildFlaggedTable records = Except.ok tbl) :
    (∀ p ∈ tbl, p.2 = 1 ↔
      (p.1.dice < 4 / 5 ∨ p.1.voxoutmask > 20 ∨ p.1.numvox_grtr_1e10.gt 0 = true)) ∧
    (∀ p ∈ tbl, p.1.dice = 4 / 5 → p.1.voxoutmask ≤ 20 →
      p.1.numvox_grtr_1e10.le 0 = true → p.2 = 0) := by
  have heq := buildFlaggedTable_ok htbl
  subst heq
  constructor
  · intro p hp
    obtain ⟨r, _hr, rfl⟩ := List.mem_map.mp hp
    exact (flaggedInt_eq_one_iff r).trans (rowFlag_iff r)
  · intro p hp hdice hvox hnum
    obtain ⟨r, _hr, rfl⟩ := List.mem_map.mp hp
    exact rowFlag_boundary r hdice hvox hnum

/-- A concrete row with `dice = 0.80`, `voxoutmask = 10` and zero extreme
voxels. -/
def c1Record : QCRecord :=
  ⟨"subject-01_task-rest_run-1", "x.nii.gz", "mni152",
    4 / 5, 90, 10, InOutRatio.fin 9, PyFloat.val 0⟩

/-- Witness for C1: the boundary row `c1Record` is unflagged. -/
theorem flag_rule_c1_witness : flaggedInt c1Record = 0 := by
  have h := (flag_rule_c1 [c1Record] [(c1Record, flaggedInt c1Record)] rfl).2
    (c1Record, flaggedInt c1Record) (List.mem_singleton.mpr rfl)
    rfl (by norm_num [c1Record]) (by simp [c1Record, PyFloat.le])
  exact h

/-! ## Claim C6 -/

/-- C6: `voxel_inout_ratio` returns `(0, 0, +inf)` when the image has no
non-zero voxel, and whenever the non-zero total is positive the two
percentages sum to exactly 100 and the third component is
`percent_inside / percent_outside`, or `+inf` when `percent_outside = 0`. -/
theorem voxel_inout_ratio_c6 (img mask : List ℚ) :
    ((∀ v ∈ img, v = 0) →
      voxel_inout_ratio img mask = (0, 0, InOutRatio.posInf)) ∧
    (0 < total_nonzero img mask →
      (voxel_inout_ratio img mask).1 + (voxel_inout_ratio img mask).2.1 = 100 ∧
      (voxel_inout_ratio img mask).2.2 =
        (if (voxel_inout_ratio img mask).2.1 = 0 then InOutRatio.posInf
         else InOutRatio.fin
           ((voxel_inout_ratio img mask).1 / (voxel_inout_ratio img mask).2.1))) := by
  constructor
  · intro hz
    have hin : nonzero_inside img mask = 0 := by
      simp only [nonzero_inside, List.length_eq_zero, List.filter_eq_nil_iff]
      intro p hp
      have := (List.of_mem_zip hp).1
      simp [hz p.1 this]
    have hout : nonzero_outside img mask = 0 := by
      simp only [nonzero_outside, List.length_eq_zero, List.filter_eq_nil_iff]
      intro p hp
      have := (List.of_mem_zip hp).1
      simp [hz p.1 this]
    have htot : total_nonzero img mask = 0 := by
      simp [total_nonzero, hin, hout]
    simp [voxel_inout_ratio, htot]
  · intro hpos
    have htot : total_nonzero img mask ≠ 0 := Nat.pos_iff_ne_zero.mp hpos
    have htotQ : ((total_nonzero img mask : ℚ)) ≠ 0 := by
      exact_mod_cast htot
    have hpin : (voxel_inout_ratio img mask).1
        = ((nonzero_inside img mask : ℚ) / (total_nonzero img mask : ℚ)) * 100 := by
      simp [voxel_inout_ratio, htot]
    have hpout : (voxel_inout_ratio img mask).2.1
        = ((nonzero_outside img mask : ℚ) / (total_nonzero img mask : ℚ)) * 100 := by
      simp [voxel_inout_ratio, htot]
    have hrat : (voxel_inout_ratio img mask).2.2
        = (if (voxel_inout_ratio img mask).2.1 ≠ 0 then
            InOutRatio.fin
              ((voxel_inout_ratio img mask).1 / (voxel_inout_ratio img mask).2.1)
          else InOutRatio.posInf) := rfl
    constructor
    · rw [hpin, hpout]
      have hsum : ((nonzero_inside img mask : ℚ)) + (nonzero_outside img mask : ℚ)
          = (total_nonzero img mask : ℚ) := by
        simp only [total_nonzero]
        push_cast
        ring
      field_simp
      linarith [hsum]
    · rw [hrat]
      by_cases hpo : (voxel_inout_ratio img mask).2.1 = 0
      · simp [hpo]
      · simp [hpo]

/-- Witness for C6: both branches evaluated on concrete two-voxel grids. -/
theorem voxel_inout_ratio_c6_witness :
    voxel_inout_ratio [0, 0] [1, 0] = (0, 0, InOutRatio.posInf) ∧
    (voxel_inout_ratio [1, 2] [1, 0]).1 + (voxel_inout_ratio [1, 2] [1, 0]).2.1 = 100 := by
  constructor
  · exact (voxel_inout_ratio_c6 [0, 0] [1, 0]).1 (by decide)
  · exact ((voxel_inout_ratio_c6 [1, 2] [1, 0]).2 (by decide)).1

/-! ## Claim C7 -/

/-- C7 counterexample: on the claim's own example (subject "01", task "rest",
run "1", no session) the code yields `"subject-01_task-rest_run-1"` — full
entity key names, not the BIDS short form `"sub-01_task-rest_run-1"` the
claim states. -/
theorem sub_run_info_counterexample :
    sub_run_info ⟨some "01", none, some "rest", some "1"⟩
        = "subject-01_task-rest_run-1" ∧
    sub_run_info ⟨some "01", none, some "rest", some "1"⟩
        ≠ "sub-01_task-rest_run-1" := by
  exact ⟨rfl, by decide⟩

/-- C7 amended: the run-identity string concatenates the entity tags present,
in the fixed order subject, session, task, run, joined by underscores, each as
`key-value` with the full key name (`subject-…`, `session-…`) and absent
entities omitted; the claim's example yields
`"subject-01_task-rest_run-1"`. -/
theorem sub_run_info_amended (s se t r : String) :
    sub_run_info ⟨some s, some se, some t, some r⟩
        = "subject-" ++ s ++ "_" ++ ("session-" ++ se) ++ "_" ++ ("task-" ++ t)
          ++ "_" ++ ("run-" ++ r) ∧
    sub_run_info ⟨some s, none, some t, some r⟩
        = "subject-" ++ s ++ "_" ++ ("task-" ++ t) ++ "_" ++ ("run-" ++ r) ∧
    sub_run_info ⟨some s, none, some t, none⟩
        = "subject-" ++ s ++ "_" ++ ("task-" ++ t) ∧
    sub_run_info ⟨some "01", none, some "rest", some "1"⟩
        = "subject-01_task-rest_run-1" := by
  refine ⟨?_, ?_, ?_, rfl⟩ <;>
    simp [sub_run_info, runInfoParts, joinUnderscore, String.append_assoc]

/-! ## The metadata store model

`BIDSLayout.get` is an external collaborator; it is modelled as a function
from a query (the keyword filters the source passes) to the list of matching
file paths. -/

/-- The identifiers of one functional run as `process_subject_run_minimal`
receives them (utils.py line 222): `sess` and `runnum` may be `None`. -/
structure RunKey where
  sub : String
  taskname : String
  sess : Option String
  runnum : Option String
deriving DecidableEq

/-- The keyword filters a `layout.get(...)` call can carry in this code base;
`none` means the keyword is not passed (or passed as `None`).  `toSpace`
stands for the Python keyword `to`. -/
structure Query where
  subject : Option String := none
  task : Option String := none
  session : Option String := none
  run : Option String := none
  extension : Option String := none
  suffix : Option String := none
  desc : Option String := none
  toSpace : Option String := none
  mode : Option String := none
  space : Option String := none
  res : Option ℕ := none
deriving DecidableEq

/-- Query (a) of the run resolver (utils.py lines 240–251): the run-specific
coregistration transform, `extension=".txt", suffix="xfm", desc="coreg",
to="T1w", mode="image"`. -/
def boldrefToT1wQuery (k : RunKey) : Query :=
  { subject := some k.sub, task := some k.taskname, session := k.sess,
    run := k.runnum, extension := some ".txt", suffix := some "xfm",
    desc := some "coreg", toSpace := some "T1w", mode := some "image" }

/-- Query (b) of the run resolver (utils.py lines 258–265): the subject-level
template transform, `extension=".h5", suffix="xfm", to="MNI152NLin2009cAsym",
mode="image"`, independent of task, session and run. -/
def t1wToMniQuery (k : RunKey) : Query :=
  { subject := some k.sub, extension := some ".h5", suffix := some "xfm",
    toSpace := some "MNI152NLin2009cAsym", mode := some "image" }

/-- Query (c) of the run resolver (utils.py lines 272–281): the run-specific
coregistered boldref image, `suffix="boldref", desc="coreg",
extension=".nii.gz"`. -/
def coregBoldrefQuery (k : RunKey) : Query :=
  { subject := some k.sub, task := some k.taskname, session := k.sess,
    run := k.runnum, suffix := some "boldref", desc := some "coreg",
    extension := some ".nii.gz" }

/-- Modelled from the spec: the derivative-type-switching run resolver
`process_subject_run`, which fp_derivs_check.py lines 7–8 import but
utils.py never defines (only the specialised `process_subject_run_minimal`
exists in the source).  Per spec §4.1(c) its boldref query carries the
descriptor filter `desc="coreg"` only when `derivative_type == "minimal"`. -/
def boldrefQueryByDerivType (derivType : String) (k : RunKey) : Query :=
  { subject := some k.sub, task := some k.taskname, session := k.sess,
    run := k.runnum, suffix := some "boldref",
    desc := if derivType = "minimal" then some "coreg" else none,
    extension := some ".nii.gz" }

/-! ## Spatial transform executor (utils.py lines 103–160) -/

/-- Where, if anywhere, the `try` body of `boldref_to_targetspace` raises:
before `output_image` is bound on utils.py line 128 (e.g. one of the `Path()`
conversions of lines 119–122 raising `TypeError` on a non-path argument),
after that binding (e.g. `mkdir` on line 129 or `subprocess.run` on line 151
raising `OSError`), or not at all. -/
inductive TryFault where
  | beforeOutBind : TryFault
  | afterOutBind : TryFault
  | noFault : TryFault
deriving DecidableEq

/-- The outcome of a Python call: a returned value, or an uncaught
exception. -/
inductive PyOutcome (α : Type) where
  | ret (a : α) : PyOutcome α
  | raised (err : String) : PyOutcome α
deriving DecidableEq

/-- The behaviour of the environment around one `boldref_to_targetspace`
call: whether/where its `try` body raises, and the external
`antsApplyTransforms` exit status and error stream. -/
structure AntsEnv where
  fault : TryFault
  returncode : ℤ
  stderr : String
deriving DecidableEq

/-- The deterministic output filename (utils.py lines 125–127): strip the
final `".nii.gz"` (7 characters) from the boldref name and insert the space
tag. -/
def antsOutFileName (boldrefName : String) : String :=
  boldrefName.dropRight 7 ++ "_space-MNI152NLin2009cAsym_brain" ++ ".nii.gz"

/-- Shallow embedding of `boldref_to_targetspace` (utils.py lines 103–160).
`boldrefName` is the basename of the input file; the returned string is
`output_tmp / out_file_name` (line 128).  The `try`/`except` of lines 118–160
is embedded exception-precisely: when the fault occurs *before* `output_image`
is bound, the handler's own `return False, output_image` (line 160) references
the unbound local and raises `UnboundLocalError`, which propagates out of the
function; when it occurs after the binding, the handler returns
`(False, output_image)`; with no fault, a non-zero exit status of the external
tool yields `(False, output_image)` with the captured stderr printed
(lines 152–154) and a zero status yields `(True, output_image)`. -/
def boldref_to_targetspace (env : AntsEnv) (boldrefName outputTmp : String) :
    PyOutcome (Bool × String) :=
  let output_image := outputTmp ++ "/" ++ antsOutFileName boldrefName
  match env.fault with
  | .beforeOutBind => .raised "UnboundLocalError"
  | .afterOutBind => .ret (false, output_image)
  | .noFault =>
    if env.returncode ≠ 0 then .ret (false, output_image)
    else .ret (true, output_image)

/-! ## Mask resolver (utils.py lines 163–218 and 304–318) -/

/-- `pat` is a leading segment of `s`, on character lists. -/
def isPrefList : List Char → List Char → Bool
  | [], _ => true
  | _ :: _, [] => false
  | a :: as, b :: bs => a == b && isPrefList as bs

/-- Helper for the substring test: does `pat` occur contiguously in the
list? -/
def containsSubAux (pat : List Char) : List Char → Bool
  | [] => pat.isEmpty
  | c :: rest => isPrefList pat (c :: rest) || containsSubAux pat rest

/-- Python's `pat in s` on strings. -/
def containsSub (s pat : String) : Bool :=
  containsSubAux pat.toList s.toList

/-- Python's `s.endswith(pat)`. -/
def strEndsWith (s pat : String) : Bool :=
  isPrefList pat.toList.reverse s.toList.reverse

/-- One node of the brain-extraction workflow result (utils.py line 195):
its name and its outputs as key–value pairs (`node.result.outputs.get()`,
line 197); the empty string models a falsy/absent output value. -/
structure WfNode where
  name : String
  outputs : List (String × String)
deriving DecidableEq

/-- The behaviour of the environment around one `target_extractbrain` call:
whether the workflow construction/run raises (utils.py lines 182–185), the
result nodes it reports, and which files exist on disk (line 207). -/
structure ExtractEnv where
  wfRaises : Bool
  nodes : List WfNode
  fileExists : String → Bool

/-- utils.py lines 198–205: `outputs.get('mask_file')`, falling back — when
that is falsy — to the first output key ending in `mask_file` carrying a
truthy value. -/
def nodeMaskFile (n : WfNode) : Option String :=
  let fallback := (n.outputs.find? (fun kv => strEndsWith kv.1 "mask_file" && kv.2 != "")).map
    (fun kv => kv.2)
  match (n.outputs.find? (fun kv => kv.1 == "mask_file")).map (fun kv => kv.2) with
  | some v => if v ≠ "" then some v else fallback
  | none => fallback

/-- utils.py lines 195–211: a node counts iff its name contains "skullstrip"
and its resolved mask file is truthy and exists on disk. -/
def nodeYieldsMask (env : ExtractEnv) (n : WfNode) : Bool :=
  containsSub n.name "skullstrip" &&
    (match nodeMaskFile n with
     | some f => env.fileExists f
     | none => false)

/-- The deterministic mask path (utils.py lines 188–191, repeated for the
fallback on lines 312–315): strip `".nii.gz"`, append `"_mask.nii.gz"`,
inside the output directory. -/
def maskTargetPath (mniImageName outputTmp : String) : String :=
  outputTmp ++ "/" ++ (mniImageName.dropRight 7 ++ "_mask" ++ ".nii.gz")

/-- Shallow embedding of `target_extractbrain` (utils.py lines 163–218),
dropping the middle component of the Python triple (the input image echoed
back unchanged).  The whole body is wrapped in `try`/`except`, so a raising
workflow yields `(False, None)` (lines 216–218), as does the absence of any
qualifying skullstrip node (lines 213–214); the first qualifying node's mask
is copied to the deterministic target path (lines 207–211). -/
def target_extractbrain (env : ExtractEnv) (mniImageName outputTmp : String) :
    Bool × Option String :=
  if env.wfRaises then (false, none)
  else
    match env.nodes.find? (fun n => nodeYieldsMask env n) with
    | some _ => (true, some (maskTargetPath mniImageName outputTmp))
    | none => (false, none)

/-- The synthesized fallback mask (utils.py lines 316–317):
`math_img('img > 0', …)` gives a 0/1 volume, then
`math_img('subbin*mnimask', …)` multiplies it voxelwise with the MNI mask. -/
def fallbackMaskVox (img mniMask : List ℚ) : List ℚ :=
  (img.zip mniMask).map (fun p => (if p.1 > 0 then (1 : ℚ) else 0) * p.2)

/-- The spec's description of the fallback mask, "(image > 0) AND
reference_template_mask", as a boolean 0/1 volume. -/
def specFallbackMask (img mniMask : List ℚ) : List ℚ :=
  (img.zip mniMask).map (fun p => if p.1 > 0 ∧ p.2 ≠ 0 then (1 : ℚ) else 0)

/-- The mask-resolution step of `process_subject_run_minimal` (utils.py lines
304–318): run `target_extractbrain`; when it reports failure, synthesize the
fallback mask and write it at the deterministic `<stem>_mask.nii.gz` path.
Returns the `mask_target` variable as it stands after line 318 (an `Option`,
mirroring the Python value) and, for a synthesized mask, its voxel data
(`none` meaning the extraction tool's own mask file is used unchanged). -/
def resolveMaskStep (env : ExtractEnv) (imgVox mniMaskVox : List ℚ)
    (mniImageName outputTmp : String) : Option String × Option (List ℚ) :=
  let r := target_extractbrain env mniImageName outputTmp
  if r.1 then (r.2, none)
  else (some (maskTargetPath mniImageName outputTmp),
        some (fallbackMaskVox imgVox mniMaskVox))

/-- Under a binary (0/1-valued) reference mask, the voxelwise product of the
source coincides with the spec's boolean AND. -/
theorem fallbackMask_eq_spec (img mniMask : List ℚ)
    (hbin : ∀ v ∈ mniMask, v = 0 ∨ v = 1) :
    fallbackMaskVox img mniMask = specFallbackMask img mniMask := by
  unfold fallbackMaskVox specFallbackMask
  apply List.map_congr_left
  intro p hp
  have hm : p.2 ∈ mniMask := (List.of_mem_zip hp).2
  rcases hbin p.2 hm with h0 | h1
  · rw [h0]
    by_cases hpos : p.1 > 0 <;> simp [hpos]
  · rw [h1]
    by_cases hpos : p.1 > 0 <;> simp [hpos]

/-! ## Claim C3 (code bug) -/

/-- C3: evaluation of the transform executor at the two discriminating
environments.  A non-zero exit status of the external tool does return the
Failure value `(False, output_image)`; but an exception raised during path
construction (before `output_image` is bound) makes the `except` handler
itself raise `UnboundLocalError`, so — contrary to the claim — an exception
does propagate uncaught out of the executor. -/
theorem boldref_to_targetspace_c3 :
    boldref_to_targetspace ⟨TryFault.noFault, 1, "err"⟩
        "sub-01_task-rest_desc-coreg_boldref.nii.gz" "/scratch"
      = PyOutcome.ret (false,
          "/scratch/sub-01_task-rest_desc-coreg_boldref_space-MNI152NLin2009cAsym_brain.nii.gz") ∧
    boldref_to_targetspace ⟨TryFault.beforeOutBind, 0, ""⟩
        "sub-01_task-rest_desc-coreg_boldref.nii.gz" "/scratch"
      = PyOutcome.raised "UnboundLocalError" := by
  exact ⟨rfl, rfl⟩

/-! ## Claim C4 -/

/-- C4: whenever brain extraction fails — the workflow raises, or no node
whose name contains "skullstrip" resolves to an existing mask file — the
mask-resolution step still produces exactly one mask: the synthesized volume
`(image > 0) AND reference_template_mask` (for a binary reference mask),
at the deterministic path `<image-stem>_mask.nii.gz`; the step is total, so
it never fails outward. -/
theorem resolve_mask_c4 (env : ExtractEnv) (imgVox mniMaskVox : List ℚ)
    (mniImageName outputTmp : String)
    (hfail : env.wfRaises = true ∨ env.nodes.find? (fun n => nodeYieldsMask env n) = none)
    (hbin : ∀ v ∈ mniMaskVox, v = 0 ∨ v = 1) :
    resolveMaskStep env imgVox mniMaskVox mniImageName outputTmp
      = (some (maskTargetPath mniImageName outputTmp),
         some (specFallbackMask imgVox mniMaskVox)) := by
  have hfalse : (target_extractbrain env mniImageName outputTmp).1 = false := by
    unfold target_extractbrain
    rcases hfail with h | h
    · simp [h]
    · by_cases hw : env.wfRaises
      · simp [hw]
      · simp [hw, h]
  unfold resolveMaskStep
  simp [hfalse, fallbackMask_eq_spec imgVox mniMaskVox hbin]

/-- Witness for C4: a workflow that always raises, a three-voxel image and a
binary reference mask; the resolver yields the synthesized mask at the
deterministic path. -/
theorem resolve_mask_c4_witness :
    resolveMaskStep ⟨true, [], fun _ => false⟩ [2, -1, 3] [1, 0, 1]
        "x.nii.gz" "/out"
      = (some "/out/x_mask.nii.gz", some [1, 0, 1]) := by
  have h := resolve_mask_c4 ⟨true, [], fun _ => false⟩ [2, -1, 3] [1, 0, 1]
    "x.nii.gz" "/out" (Or.inl rfl) (by decide)
  rw [h]
  rfl

/-! ## Similarity metrics assembly (utils.py lines 46–100) -/

/-- Python's `Path(p).name`: the final path component. -/
def pathName (p : String) : String :=
  (p.splitOn "/").getLastD p

/-- The external collaborators `similarity_boldtarget_metrics` reads through:
`parse_file_entities` (utils.py line 67), `pyrelimri`'s
`similarity.image_similarity` (lines 76–82), and `load_img(...).get_fdata()`
as used by `voxel_inout_ratio` (lines 28–33) — the last one doubling as the
ambient file system contents for voxel data. -/
structure MetricsEnv where
  entities : String → ParsedEntities
  image_similarity : String → String → ℚ
  imgData : String → List ℚ

/-- Shallow embedding of `similarity_boldtarget_metrics` (utils.py lines
46–100): one QC record, with the run-identity string from the parsed
entities, the basename, the fixed target label "mni152", the external dice
estimate, the three components of `voxel_inout_ratio`, and the extreme-voxel
count passed through unchanged. -/
def similarity_boldtarget_metrics (env : MetricsEnv)
    (imgPath brainmaskPath : String) (nExtreme : PyFloat) : QCRecord :=
  let v := voxel_inout_ratio (env.imgData imgPath) (env.imgData brainmaskPath)
  { img1 := sub_run_info (env.entities imgPath)
    img1name := pathName imgPath
    img2 := "mni152"
    dice := env.image_similarity imgPath brainmaskPath
    voxinmask := v.1
    voxoutmask := v.2.1
    ratio_inoutmask := v.2.2
    numvox_grtr_1e10 := nExtreme }

/-! ## The per-run pipeline (utils.py lines 222–327) -/

/-- Everything one `process_subject_run_minimal` call observes of the outside
world: the metadata store, the transform tool, the extraction workflow and
the file contents. -/
structure PipelineEnv where
  layout : Query → List String
  ants : AntsEnv
  extract : ExtractEnv
  metrics : MetricsEnv

/-- Shallow embedding of `process_subject_run_minimal` (utils.py lines
222–327).  Each of the three store queries returning zero matches is an early
`return None` (lines 254, 268, 284); the first match is used otherwise
(lines 289–291).  A transform failure is also `return None` (lines 296–297);
extreme voxels are counted on the transformed image (lines 300–302); the mask
is resolved with fallback (lines 304–318); finally the metrics record is
returned (lines 320–327).  A `raised` outcome of a sub-step propagates. -/
def process_subject_run_minimal (env : PipelineEnv) (k : RunKey)
    (mniMaskPath outputDir : String) : PyOutcome (Option QCRecord) :=
  match env.layout (boldrefToT1wQuery k) with
  | [] => .ret none
  | _ :: _ =>
    match env.layout (t1wToMniQuery k) with
    | [] => .ret none
    | _ :: _ =>
      match env.layout (coregBoldrefQuery k) with
      | [] => .ret none
      | boldref :: _ =>
        match boldref_to_targetspace env.ants (pathName boldref) outputDir with
        | .raised e => .raised e
        | .ret (false, _) => .ret none
        | .ret (true, mniPathOut) =>
          let numExtreme := extreme_voxel_count (env.metrics.imgData mniPathOut)
          match resolveMaskStep env.extract (env.metrics.imgData mniPathOut)
              (env.metrics.imgData mniMaskPath) (pathName mniPathOut) outputDir with
          | (some maskTarget, _) =>
            .ret (some (similarity_boldtarget_metrics env.metrics maskTarget
              mniMaskPath (.val (numExtreme : ℚ))))
          | (none, _) =>
            -- unreachable in the source (success always carries a path); a
            -- `None` mask path would make `parse_file_entities` raise.
            .raised "TypeError"

/-- The record-collection loop of fp_derivs_check.py lines 68–82: run the
pipeline for every run key in order, appending each truthy result; an
uncaught exception from the pipeline aborts the loop. -/
def collectRecords (env : PipelineEnv) (mniMaskPath outputDir : String) :
    List RunKey → PyOutcome (List QCRecord)
  | [] => .ret []
  | k :: ks =>
    match process_subject_run_minimal env k mniMaskPath outputDir with
    | .raised e => .raised e
    | .ret none => collectRecords env mniMaskPath outputDir ks
    | .ret (some r) =>
      match collectRecords env mniMaskPath outputDir ks with
      | .raised e => .raised e
      | .ret rs => .ret (r :: rs)

/-! ## The full (precomputed-mask) variant (utils.py lines 330–373) -/

/-- The single store query of `process_subject_run_full` (utils.py lines
348–355): already-template-space brain masks, `suffix='mask',
extension='.nii.gz', space='MNI152NLin2009cAsym', res=2, desc='brain'`. -/
def fullMaskQuery : Query :=
  { suffix := some "mask", extension := some ".nii.gz",
    space := some "MNI152NLin2009cAsym", res := some 2, desc := some "brain" }

/-- Shallow embedding of `process_subject_run_full` (utils.py lines 330–373):
one metrics record per discovered mask, each with
`n_extreme_voxels = np.nan` (line 363); every record is truthy, so every one
is appended (lines 365–366). -/
def process_subject_run_full (menv : MetricsEnv) (layout : Query → List String)
    (mniMaskPath : String) : List QCRecord :=
  (layout fullMaskQuery).map
    (fun brainPath => similarity_boldtarget_metrics menv brainPath mniMaskPath PyFloat.nan)

/-! ## The import surface (fp_derivs_check.py lines 1–8) -/

/-- The top-level attributes of the `utils` module: its own imports
(utils.py lines 1–11) and the five functions it defines. -/
def utilsModuleNames : List String :=
  ["shutil", "subprocess", "Path", "Dict", "Tuple", "Union", "Optional", "np",
   "parse_file_entities", "similarity", "init_skullstrip_bold_wf", "pd",
   "load_img", "math_img",
   "voxel_inout_ratio", "similarity_boldtarget_metrics",
   "boldref_to_targetspace", "target_extractbrain",
   "process_subject_run_minimal", "process_subject_run_full"]

/-- The names fp_derivs_check.py requests from `utils` (lines 7–8). -/
def fpDerivsCheckImports : List String :=
  ["voxel_inout_ratio", "boldmask_to_targetspace", "extract_brain",
   "process_subject_run"]

/-- Python's `from m import a, b, …`: succeeds iff every requested name is an
attribute of the module. -/
def fromImportOk (defined requested : List String) : Bool :=
  requested.all (fun n => defined.contains n)

/-- fp_derivs_check.py as a whole: the `from utils import …` of lines 7–8
runs before anything else; only when every requested name resolves does the
script go on to collect records and build the flagged table
(lines 85–93). -/
def fpDerivsCheckScript (collected : List QCRecord) :
    Except String (List (QCRecord × ℤ)) :=
  if fromImportOk utilsModuleNames fpDerivsCheckImports then
    buildFlaggedTable collected
  else
    .error "ImportError"

/-! ## Claim C2 -/

/-- C2: when any of the three store queries for a run returns zero matches,
the per-run pipeline returns `None` without raising, and the collection loop
over that run key produces exactly the table it produces without it. -/
theorem run_resolver_skip_c2 (env : PipelineEnv) (k : RunKey)
    (mniMaskPath outputDir : String) (ks : List RunKey)
    (h : env.layout (boldrefToT1wQuery k) = [] ∨
         env.layout (t1wToMniQuery k) = [] ∨
         env.layout (coregBoldrefQuery k) = []) :
    process_subject_run_minimal env k mniMaskPath outputDir = PyOutcome.ret none ∧
    collectRecords env mniMaskPath outputDir (k :: ks)
      = collectRecords env mniMaskPath outputDir ks := by
  have hnone : process_subject_run_minimal env k mniMaskPath outputDir
      = PyOutcome.ret none := by
    unfold process_subject_run_minimal
    cases hq1 : env.layout (boldrefToT1wQuery k) with
    | nil => rfl
    | cons a l =>
      cases hq2 : env.layout (t1wToMniQuery k) with
      | nil => rfl
      | cons b m =>
        cases hq3 : env.layout (coregBoldrefQuery k) with
        | nil => rfl
        | cons c n =>
          exfalso
          rcases h with h | h | h
          · rw [h] at hq1
            exact List.noConfusion hq1
          · rw [h] at hq2
            exact List.noConfusion hq2
          · rw [h] at hq3
            exact List.noConfusion hq3
  refine ⟨hnone, ?_⟩
  simp only [collectRecords, hnone]

/-- A pipeline environment whose store returns no match for any query. -/
def emptyStoreEnv : PipelineEnv :=
  ⟨fun _ => [], ⟨TryFault.noFault, 0, ""⟩, ⟨false, [], fun _ => false⟩,
   ⟨fun _ => ⟨none, none, none, none⟩, fun _ _ => 0, fun _ => []⟩⟩

/-- Witness for C2: a concrete run key against an empty store is skipped and
leaves the collected table unchanged. -/
theorem run_resolver_skip_c2_witness :
    process_subject_run_minimal emptyStoreEnv ⟨"01", "rest", none, none⟩
        "mni.nii.gz" "/out" = PyOutcome.ret none ∧
    collectRecords emptyStoreEnv "mni.nii.gz" "/out" [⟨"01", "rest", none, none⟩]
      = collectRecords emptyStoreEnv "mni.nii.gz" "/out" [] :=
  run_resolver_skip_c2 emptyStoreEnv ⟨"01", "rest", none, none⟩
    "mni.nii.gz" "/out" [] (Or.inl rfl)

/-! ## Claim C5 -/

/-- C5: the aggregation tail raises iff the collected table is empty; with at
least one record it returns the flagged table (which is then persisted), and
skipped runs — absent from `records` — surface no error. -/
theorem aggregate_empty_c5 (records : List QCRecord) :
    ((∃ e, buildFlaggedTable records = Except.error e) ↔ records = []) ∧
    (records ≠ [] →
      buildFlaggedTable records
        = Except.ok (records.map (fun r => (r, flaggedInt r)))) := by
  constructor
  · constructor
    · rintro ⟨e, he⟩
      by_contra hne
      simp [buildFlaggedTable, hne] at he
    · rintro rfl
      exact ⟨_, rfl⟩
  · intro hne
    simp [buildFlaggedTable, hne]

/-- Witness for C5: a one-record table is built without error. -/
theorem aggregate_empty_c5_witness :
    buildFlaggedTable [c1Record]
      = Except.ok [(c1Record, flaggedInt c1Record)] := by
  have h := (aggregate_empty_c5 [c1Record]).2 (by simp)
  exact h

/-! ## Claim C8 -/

/-- C8: the resolver's boldref query carries the descriptor filter
`desc="coreg"` exactly when the derivative type is "minimal", and the source's
minimal-variant query coincides with the minimal instance of that resolver. -/
theorem boldref_desc_filter_c8 :
    (∀ (derivType : String) (k : RunKey),
      (boldrefQueryByDerivType derivType k).desc = some "coreg"
        ↔ derivType = "minimal") ∧
    (∀ k : RunKey, coregBoldrefQuery k = boldrefQueryByDerivType "minimal" k) := by
  constructor
  · intro dt k
    unfold boldrefQueryByDerivType
    by_cases hdt : dt = "minimal"
    · simp [hdt]
    · simp [hdt]
  · intro k
    rfl

/-! ## Claim C9 -/

/-- C9: three of the four names fp_derivs_check.py imports from `utils` are
not attributes of that module, so the script raises `ImportError` before any
work is done and can never produce a QC table. -/
theorem fp_import_error_c9 :
    ("boldmask_to_targetspace" ∉ utilsModuleNames ∧
     "extract_brain" ∉ utilsModuleNames ∧
     "process_subject_run" ∉ utilsModuleNames) ∧
    ∀ collected : List QCRecord,
      fpDerivsCheckScript collected = Except.error "ImportError" := by
  refine ⟨by decide, ?_⟩
  intro collected
  rfl

/-! ## Claim C10 -/

/-- C10: every record of the full (precomputed-mask) variant carries
`numvox_grtr_1e10 = NaN`; since `NaN > 0` is false, such a record is flagged
iff `dice < 0.80` or `voxoutmask > 20` — the extreme-voxel clause can never
trigger in that variant. -/
theorem full_variant_nan_c10 (menv : MetricsEnv) (layout : Query → List String)
    (mniMaskPath : String) (r : QCRecord)
    (hr : r ∈ process_subject_run_full menv layout mniMaskPath) :
    r.numvox_grtr_1e10 = PyFloat.nan ∧
    (flaggedInt r = 1 ↔ (r.dice < 4 / 5 ∨ r.voxoutmask > 20)) := by
  obtain ⟨p, _hp, rfl⟩ := List.mem_map.mp hr
  have hnan : (similarity_boldtarget_metrics menv p mniMaskPath
      PyFloat.nan).numvox_grtr_1e10 = PyFloat.nan := rfl
  refine ⟨hnan, ?_⟩
  rw [flaggedInt_eq_one_iff, rowFlag_iff, hnan]
  simp [PyFloat.gt]

/-- A concrete metrics environment for the full-variant witness. -/
def fullMetricsEnvC : MetricsEnv :=
  ⟨fun _ => ⟨some "01", none, some "rest", none⟩, fun _ _ => 1, fun _ => [1]⟩

/-- Witness for C10: the single record discovered by a one-mask store carries
NaN in the extreme-voxel column and is flagged only by the dice/voxoutmask
clauses. -/
theorem full_variant_nan_c10_witness :
    (similarity_boldtarget_metrics fullMetricsEnvC "m.nii.gz" "mask.nii.gz"
        PyFloat.nan).numvox_grtr_1e10 = PyFloat.nan ∧
    (flaggedInt (similarity_boldtarget_metrics fullMetricsEnvC "m.nii.gz"
        "mask.nii.gz" PyFloat.nan) = 1 ↔
      ((similarity_boldtarget_metrics fullMetricsEnvC "m.nii.gz" "mask.nii.gz"
          PyFloat.nan).dice < 4 / 5 ∨
       (similarity_boldtarget_metrics fullMetricsEnvC "m.nii.gz" "mask.nii.gz"
          PyFloat.nan).voxoutmask > 20)) := by
  have hmem : similarity_boldtarget_metrics fullMetricsEnvC "m.nii.gz"
      "mask.nii.gz" PyFloat.nan
      ∈ process_subject_run_full fullMetricsEnvC (fun _ => ["m.nii.gz"])
          "mask.nii.gz" := by
    simp [process_subject_run_full]
  exact full_variant_nan_c10 fullMetricsEnvC (fun _ => ["m.nii.gz"])
    "mask.nii.gz" _ hmem

end FmriprepQC
